import Mathlib

/-!
Shallow embedding of the two logic-bearing pieces of the school management
backend: the fee/payment balance reconciliation performed inline by the
payment endpoints (src/school_management_system/api/endpoints/payments.py)
and the timetable-slot conflict checking performed inline by the slot
endpoints (src/school_management_system/api/endpoints/timetables.py).

Monetary amounts are SQL floats in the source; the spec calls them
decimals, so they are embedded as rationals. Times of day are `datetime.time`
values, totally ordered componentwise; they are embedded as minutes since
midnight (a natural number). Inert identification fields (academic year,
term, student id, dates, payment method, ...) that no reconciliation or
conflict logic reads are omitted from the record structures.
-/

namespace SchoolMS

/-- Payment status enumeration, from models/payment.py `PaymentStatus`. -/
inductive PaymentStatus where
  | pending
  | paid
  | partiallyPaid
  | overdue
  | cancelled
  | refunded
deriving DecidableEq, Repr

/-- The fields of a fee record read or written by the payment endpoints,
from models/payment.py `FeeRecord`. -/
structure FeeRecord where
  total_amount : ℚ
  paid_amount : ℚ
  balance : ℚ
  status : PaymentStatus
deriving DecidableEq, Repr

/-- The fee-record mutation performed by `create_payment`
(payments.py lines 493-506): add the payment amount, recompute the
balance, then set status PAID when the balance is non-positive, else
PARTIALLY_PAID when the paid amount is positive; there is no else branch,
so otherwise the stored status is left unchanged. -/
def create_payment_apply (r : FeeRecord) (amount : ℚ) : FeeRecord :=
  let paid := r.paid_amount + amount
  let bal := r.total_amount - paid
  let st :=
    if bal ≤ 0 then PaymentStatus.paid
    else if 0 < paid then PaymentStatus.partiallyPaid
    else r.status
  { r with paid_amount := paid, balance := bal, status := st }

/-- The fee-record mutation performed by `update_payment`
(payments.py lines 557-582): the request's optional amount replaces the
payment's amount; the fee record is recomputed only when an amount was
supplied and differs from the original amount, with the full
PAID / PARTIALLY_PAID / PENDING cascade. -/
def update_payment_apply (r : FeeRecord) (original_amount : ℚ)
    (amount_update : Option ℚ) : FeeRecord :=
  match amount_update with
  | none => r
  | some a =>
    if a = original_amount then r
    else
      let paid := r.paid_amount - original_amount + a
      let bal := r.total_amount - paid
      let st :=
        if bal ≤ 0 then PaymentStatus.paid
        else if 0 < paid then PaymentStatus.partiallyPaid
        else PaymentStatus.pending
      { r with paid_amount := paid, balance := bal, status := st }

/-- The fee-record mutation performed by `delete_payment`
(payments.py lines 605-618): subtract the deleted payment's amount,
recompute the balance, and set status PENDING when the resulting paid
amount is non-positive, else PARTIALLY_PAID; the balance is not consulted
for the status, so PAID is never produced here. -/
def delete_payment_apply (r : FeeRecord) (amount : ℚ) : FeeRecord :=
  let paid := r.paid_amount - amount
  let bal := r.total_amount - paid
  let st :=
    if paid ≤ 0 then PaymentStatus.pending
    else PaymentStatus.partiallyPaid
  { r with paid_amount := paid, balance := bal, status := st }

/-- The fields of `FeeRecordCreate` (payments.py lines 85-98) that land in
the embedded record: the client supplies total, paid and balance directly. -/
structure FeeRecordCreate where
  total_amount : ℚ
  paid_amount : ℚ
  balance : ℚ
  status : PaymentStatus
deriving DecidableEq, Repr

/-- `create_fee_record` (payments.py lines 372-384): the record is built
from the request fields verbatim, with no reconciliation of the balance. -/
def create_fee_record (req : FeeRecordCreate) : FeeRecord :=
  { total_amount := req.total_amount
    paid_amount := req.paid_amount
    balance := req.balance
    status := req.status }

/-- The optional fields of `FeeRecordUpdate` (payments.py lines 101-108)
kept by the embedding; `none` means the field is absent from the request. -/
structure FeeRecordUpdate where
  total_amount : Option ℚ
  paid_amount : Option ℚ
  balance : Option ℚ
  status : Option PaymentStatus
deriving DecidableEq, Repr

/-- `update_fee_record` (payments.py lines 424-448): every field present in
the request is written onto the record verbatim (`setattr` over the
`exclude_unset` dict); absent fields keep their stored values. No derived
field is recomputed. -/
def update_fee_record (r : FeeRecord) (u : FeeRecordUpdate) : FeeRecord :=
  { total_amount := u.total_amount.getD r.total_amount
    paid_amount := u.paid_amount.getD r.paid_amount
    balance := u.balance.getD r.balance
    status := u.status.getD r.status }

/-- The three payment-affecting events of the spec, routed to the code of
the corresponding endpoint. -/
inductive PaymentEvent where
  | newPayment (amount : ℚ)
  | amendedPayment (original amount : ℚ)
  | removedPayment (amount : ℚ)
deriving DecidableEq, Repr

/-- Apply one payment event to a fee record through the endpoint code. -/
def applyEvent (r : FeeRecord) : PaymentEvent → FeeRecord
  | PaymentEvent.newPayment a => create_payment_apply r a
  | PaymentEvent.amendedPayment o a => update_payment_apply r o (some a)
  | PaymentEvent.removedPayment a => delete_payment_apply r a

/-- The fee-record consistency invariant of the spec. -/
def feeInvariant (r : FeeRecord) : Prop :=
  r.balance = r.total_amount - r.paid_amount

/-- The status derivation table of spec section 4.1, written from the
spec's words for comparison with the endpoint code: PAID when the balance
is non-positive, else PARTIALLY_PAID when the paid amount is positive,
else PENDING. -/
def spec_status_table (balance paid_amount : ℚ) : PaymentStatus :=
  if balance ≤ 0 then PaymentStatus.paid
  else if 0 < paid_amount then PaymentStatus.partiallyPaid
  else PaymentStatus.pending

/-- Day-of-week enumeration, from models/timetable.py `DayOfWeek`. -/
inductive DayOfWeek where
  | monday
  | tuesday
  | wednesday
  | thursday
  | friday
  | saturday
  | sunday
deriving DecidableEq, Repr

/-- The fields of a timetable slot read or written by the slot endpoints,
from models/timetable.py `TimetableSlot`. Times are minutes since
midnight. -/
structure TimetableSlot where
  id : ℕ
  day : DayOfWeek
  start_time : ℕ
  end_time : ℕ
  room_number : Option String
  timetable_id : ℕ
  subject_id : ℕ
  teacher_id : Option ℕ
deriving DecidableEq, Repr

/-- Request body of slot creation, from `TimetableSlotCreate`
(timetables.py lines 52-63). -/
structure TimetableSlotCreate where
  day : DayOfWeek
  start_time : ℕ
  end_time : ℕ
  room_number : Option String
  timetable_id : ℕ
  subject_id : ℕ
  teacher_id : Option ℕ
deriving DecidableEq, Repr

/-- Request body of slot update, from `TimetableSlotUpdate`
(timetables.py lines 66-72); `none` means the field is absent from the
request. -/
structure TimetableSlotUpdate where
  day : Option DayOfWeek
  start_time : Option ℕ
  end_time : Option ℕ
  room_number : Option String
  subject_id : Option ℕ
  teacher_id : Option ℕ
deriving DecidableEq, Repr

/-- The two HTTP error shapes raised by the slot endpoints: 404 with a
detail string, and 400 with a detail string. -/
inductive ApiError where
  | notFound (detail : String)
  | badRequest (detail : String)
deriving DecidableEq, Repr

/-- Detail string of the 404 raised when the timetable is absent. -/
def timetableNotFoundDetail : String := "Timetable not found"

/-- Detail string of the 404 raised when the slot is absent. -/
def slotNotFoundDetail : String := "Timetable slot not found"

/-- Detail string of the 400 raised on a slot time conflict; a fixed
message, carrying no information about which slots conflict. -/
def conflictDetail : String := "Time slot conflicts with existing slots"

/-- The conflict query of `create_timetable_slot` (timetables.py lines
214-222): existing slots of the same timetable and day whose interval
satisfies `existing.start_time < candidate.end_time` and
`existing.end_time > candidate.start_time`. -/
def create_conflict_query (slots : List TimetableSlot)
    (c : TimetableSlotCreate) : List TimetableSlot :=
  slots.filter fun s =>
    decide (s.timetable_id = c.timetable_id ∧ s.day = c.day ∧
      s.start_time < c.end_time ∧ c.start_time < s.end_time)

/-- The conflict query of `update_timetable_slot` (timetables.py lines
298-306): the same interval condition, over slots of the stored slot's
timetable and the candidate day, excluding the slot being updated. -/
def update_conflict_query (slots : List TimetableSlot) (slot_id : ℕ)
    (tid : ℕ) (day : DayOfWeek) (start_time end_time : ℕ) :
    List TimetableSlot :=
  slots.filter fun s =>
    decide (s.id ≠ slot_id ∧ s.timetable_id = tid ∧ s.day = day ∧
      s.start_time < end_time ∧ start_time < s.end_time)

/-- The row inserted by slot creation: the request fields plus the fresh
primary key. -/
def mk_slot (newId : ℕ) (c : TimetableSlotCreate) : TimetableSlot :=
  { id := newId
    day := c.day
    start_time := c.start_time
    end_time := c.end_time
    room_number := c.room_number
    timetable_id := c.timetable_id
    subject_id := c.subject_id
    teacher_id := c.teacher_id }

/-- `create_timetable_slot` (timetables.py lines 197-234): 404 when the
timetable id matches no timetable; 400 with a fixed detail when the
conflict query is non-empty (raised before the insert, so the slot table
is unchanged); otherwise the slot is inserted. Returns the response
together with the resulting slot table. -/
def create_timetable_slot (timetable_ids : List ℕ)
    (slots : List TimetableSlot) (newId : ℕ) (c : TimetableSlotCreate) :
    Except ApiError TimetableSlot × List TimetableSlot :=
  if timetable_ids.contains c.timetable_id then
    let conflicts := create_conflict_query slots c
    if conflicts.isEmpty then
      let slot := mk_slot newId c
      (Except.ok slot, slots ++ [slot])
    else
      (Except.error (ApiError.badRequest conflictDetail), slots)
  else
    (Except.error (ApiError.notFound timetableNotFoundDetail), slots)

/-- The Python guard `if slot_in.day or slot_in.start_time or
slot_in.end_time` (timetables.py line 293). Enumeration members and
`datetime.time` values are truthy whenever present (time objects are
always truthy since Python 3.5, midnight included), so the guard holds
exactly when one of the three fields is supplied. -/
def update_checks_time (u : TimetableSlotUpdate) : Bool :=
  u.day.isSome || u.start_time.isSome || u.end_time.isSome

/-- The `setattr` loop of slot update (timetables.py lines 314-317):
every supplied field overwrites the stored one. -/
def apply_slot_update (s : TimetableSlot) (u : TimetableSlotUpdate) :
    TimetableSlot :=
  { s with
    day := u.day.getD s.day
    start_time := u.start_time.getD s.start_time
    end_time := u.end_time.getD s.end_time
    room_number := match u.room_number with
      | some v => some v
      | none => s.room_number
    subject_id := u.subject_id.getD s.subject_id
    teacher_id := match u.teacher_id with
      | some v => some v
      | none => s.teacher_id }

/-- `update_timetable_slot` (timetables.py lines 275-321): 404 when no
slot has the given id; when one of day / start_time / end_time is supplied
the conflict query runs against the candidate values `supplied-or-stored`
(the Python `or` fallback, which for present enum and time values always
takes the supplied value), rejecting with a fixed 400 detail before any
field is written; otherwise the supplied fields are written. Returns the
response together with the resulting slot table. -/
def update_timetable_slot (slots : List TimetableSlot) (slot_id : ℕ)
    (u : TimetableSlotUpdate) :
    Except ApiError TimetableSlot × List TimetableSlot :=
  match slots.find? (fun s => s.id == slot_id) with
  | none => (Except.error (ApiError.notFound slotNotFoundDetail), slots)
  | some slot =>
    let slot' := apply_slot_update slot u
    let applied : Except ApiError TimetableSlot × List TimetableSlot :=
      (Except.ok slot', slots.map fun s => if s.id == slot_id then slot' else s)
    if update_checks_time u then
      let day := u.day.getD slot.day
      let start_time := u.start_time.getD slot.start_time
      let end_time := u.end_time.getD slot.end_time
      let conflicts :=
        update_conflict_query slots slot_id slot.timetable_id day start_time end_time
      if conflicts.isEmpty then applied
      else (Except.error (ApiError.badRequest conflictDetail), slots)
    else applied

/-! Theorems -/

/-- C1 counterexample: deleting a payment of 30 from a record with
total 100 and paid 150 leaves balance -20 ≤ 0 and paid 120 > 0, yet the
status set by `delete_payment` is PARTIALLY_PAID, not PAID as the claim
requires for every resulting state with non-positive balance and positive
paid amount. -/
theorem C1_counterexample :
    (delete_payment_apply ⟨100, 150, -50, PaymentStatus.paid⟩ 30).balance ≤ 0 ∧
    0 < (delete_payment_apply ⟨100, 150, -50, PaymentStatus.paid⟩ 30).paid_amount ∧
    (delete_payment_apply ⟨100, 150, -50, PaymentStatus.paid⟩ 30).status ≠
      PaymentStatus.paid := by
  refine ⟨?_, ?_, ?_⟩ <;> norm_num [delete_payment_apply] <;> decide

/-- C1 amended: `delete_payment` subtracts the amount, recomputes the
balance, and derives the status from the resulting paid amount alone —
PENDING when it is non-positive, else PARTIALLY_PAID; PAID is never
produced, whatever the balance. -/
theorem C1_delete_payment_shape (r : FeeRecord) (a : ℚ) :
    delete_payment_apply r a =
      { total_amount := r.total_amount
        paid_amount := r.paid_amount - a
        balance := r.total_amount - (r.paid_amount - a)
        status := if r.paid_amount - a ≤ 0 then PaymentStatus.pending
                  else PaymentStatus.partiallyPaid } := by
  cases r
  rfl

/-- C5: on a record with non-negative total and paid amounts, a payment of
positive amount adds the amount to the paid amount, recomputes the balance
as total minus paid, and sets the status exactly as the ordered table of
spec section 4.1 prescribes (the code's missing else branch is unreachable
because the new paid amount is positive). -/
theorem C5_create_payment_table (t p b a : ℚ) (s : PaymentStatus)
    (ht : 0 ≤ t) (hp : 0 ≤ p) (ha : 0 < a) :
    (create_payment_apply ⟨t, p, b, s⟩ a).paid_amount = p + a ∧
    (create_payment_apply ⟨t, p, b, s⟩ a).balance = t - (p + a) ∧
    (create_payment_apply ⟨t, p, b, s⟩ a).status =
      spec_status_table (t - (p + a)) (p + a) := by
  have hpa : 0 < p + a := add_pos_of_nonneg_of_pos hp ha
  refine ⟨rfl, rfl, ?_⟩
  by_cases hbal : t - (p + a) ≤ 0 <;>
    simp [create_payment_apply, spec_status_table, hbal, hpa]

/-- C5 witness: the spec's two worked examples, derived from the general
theorem at total 5500 and paid 0: a payment of 5500 yields status PAID
with balance 0, a payment of 3000 yields status PARTIALLY_PAID with
balance 2500. -/
theorem C5_witness :
    (0:ℚ) ≤ 5500 ∧ (0:ℚ) ≤ 0 ∧ (0:ℚ) < 5500 ∧ (0:ℚ) < 3000 ∧
    (create_payment_apply ⟨5500, 0, 5500, PaymentStatus.pending⟩ 5500).status =
      PaymentStatus.paid ∧
    (create_payment_apply ⟨5500, 0, 5500, PaymentStatus.pending⟩ 5500).balance = 0 ∧
    (create_payment_apply ⟨5500, 0, 5500, PaymentStatus.pending⟩ 3000).status =
      PaymentStatus.partiallyPaid ∧
    (create_payment_apply ⟨5500, 0, 5500, PaymentStatus.pending⟩ 3000).balance =
      2500 := by
  have h1 := C5_create_payment_table 5500 0 5500 5500 PaymentStatus.pending
    (by norm_num) (by norm_num) (by norm_num)
  have h2 := C5_create_payment_table 5500 0 5500 3000 PaymentStatus.pending
    (by norm_num) (by norm_num) (by norm_num)
  refine ⟨by norm_num, le_refl 0, by norm_num, by norm_num, ?_, ?_, ?_, ?_⟩
  · rw [h1.2.2]; norm_num [spec_status_table]
  · rw [h1.2.1]; norm_num
  · rw [h2.2.2]; norm_num [spec_status_table]
  · rw [h2.2.1]; norm_num

/-- C6 counterexample: on a PAID record with total 100 and paid 100,
creating and then deleting a payment of 50 restores paid 100 but ends with
status PARTIALLY_PAID, not the original PAID — the round trip does not
restore the status. -/
theorem C6_counterexample :
    (delete_payment_apply
        (create_payment_apply ⟨100, 100, 0, PaymentStatus.paid⟩ 50) 50).status ≠
      PaymentStatus.paid := by
  norm_num [create_payment_apply, delete_payment_apply]
  decide

/-- C6 amended: creating then deleting a payment of the same amount
restores the paid amount (and leaves the balance reconciled as total minus
paid), but the status is restored exactly when the starting status already
was the value the deletion derives: PENDING with non-positive paid amount,
or PARTIALLY_PAID with positive paid amount. -/
theorem C6_round_trip (r : FeeRecord) (x : ℚ) :
    (delete_payment_apply (create_payment_apply r x) x).paid_amount =
      r.paid_amount ∧
    (delete_payment_apply (create_payment_apply r x) x).balance =
      r.total_amount - r.paid_amount ∧
    ((delete_payment_apply (create_payment_apply r x) x).status = r.status ↔
      (r.paid_amount ≤ 0 ∧ r.status = PaymentStatus.pending) ∨
      (0 < r.paid_amount ∧ r.status = PaymentStatus.partiallyPaid)) := by
  have hpx : r.paid_amount + x - x = r.paid_amount := by ring
  refine ⟨?_, ?_, ?_⟩
  · simp [create_payment_apply, delete_payment_apply, hpx]
  · simp [create_payment_apply, delete_payment_apply, hpx]
  · by_cases hp : r.paid_amount ≤ 0
    · simp only [create_payment_apply, delete_payment_apply, hpx]
      rw [if_pos hp]
      constructor
      · intro h; exact Or.inl ⟨hp, h.symm⟩
      · rintro (⟨_, h⟩ | ⟨h, _⟩)
        · exact h.symm
        · exact absurd h (not_lt.mpr hp)
    · simp only [create_payment_apply, delete_payment_apply, hpx]
      rw [if_neg hp]
      push_neg at hp
      constructor
      · intro h; exact Or.inr ⟨hp, h.symm⟩
      · rintro (⟨h, _⟩ | ⟨_, h⟩)
        · exact absurd h (not_le.mpr hp)
        · exact h.symm

/-- Each payment event preserves the balance invariant: payment creation
and deletion re-derive the balance outright, and a payment amendment
either re-derives it (amount changed) or leaves the record untouched. -/
theorem applyEvent_preserves_invariant (r : FeeRecord) (e : PaymentEvent)
    (h : feeInvariant r) : feeInvariant (applyEvent r e) := by
  cases e with
  | newPayment a => simp [applyEvent, create_payment_apply, feeInvariant]
  | amendedPayment o a =>
    by_cases hoa : a = o
    · simpa [applyEvent, update_payment_apply, hoa] using h
    · simp [applyEvent, update_payment_apply, hoa, feeInvariant]
  | removedPayment a => simp [applyEvent, delete_payment_apply, feeInvariant]

/-- Folding any event list over a record satisfying the balance invariant
yields a record satisfying it. -/
theorem foldl_applyEvent_invariant (events : List PaymentEvent)
    (r : FeeRecord) (h : feeInvariant r) :
    feeInvariant (events.foldl applyEvent r) := by
  induction events generalizing r with
  | nil => simpa using h
  | cons e es ih =>
    rw [List.foldl_cons]
    exact ih _ (applyEvent_preserves_invariant r e h)

/-- C2 counterexample: a record created with paid amount 0 but a
client-supplied balance of 50 against a total of 100, hit first by an
amended-payment event whose amount is unchanged (3 to 3): the endpoint
performs no recomputation, so after that event the invariant
balance = total - paid still fails. -/
theorem C2_counterexample :
    ¬ feeInvariant
        (([PaymentEvent.amendedPayment 3 3].take 1).foldl applyEvent
          ⟨100, 0, 50, PaymentStatus.pending⟩) := by
  norm_num [feeInvariant, applyEvent, update_payment_apply]

/-- C2 amended: starting from a record with paid amount 0 whose balance
is consistent (balance = total amount), every prefix of every event
sequence leaves the record satisfying balance = total - paid; the claim
as stated fails only for an initially inconsistent record first hit by an
amended-payment event with unchanged amount, which the payment update
endpoint leaves untouched. -/
theorem C2_invariant_all_prefixes (r0 : FeeRecord)
    (h0 : r0.paid_amount = 0) (hb : r0.balance = r0.total_amount)
    (events : List PaymentEvent) (n : ℕ) :
    feeInvariant ((events.take n).foldl applyEvent r0) := by
  apply foldl_applyEvent_invariant
  simp [feeInvariant, h0, hb]

/-- C2 witness: the invariant holds after each of the three events
new 30, amend 30 to 50, remove 50 applied to a consistent record with
total 100 and paid 0. -/
theorem C2_witness :
    (⟨100, 0, 100, PaymentStatus.pending⟩ : FeeRecord).paid_amount = 0 ∧
    (⟨100, 0, 100, PaymentStatus.pending⟩ : FeeRecord).balance =
      (⟨100, 0, 100, PaymentStatus.pending⟩ : FeeRecord).total_amount ∧
    feeInvariant
      (([PaymentEvent.newPayment 30, PaymentEvent.amendedPayment 30 50,
          PaymentEvent.removedPayment 50].take 3).foldl applyEvent
        ⟨100, 0, 100, PaymentStatus.pending⟩) :=
  ⟨rfl, rfl,
    C2_invariant_all_prefixes ⟨100, 0, 100, PaymentStatus.pending⟩ rfl rfl
      [PaymentEvent.newPayment 30, PaymentEvent.amendedPayment 30 50,
        PaymentEvent.removedPayment 50] 3⟩

/-- C3 counterexample: the fee-record update endpoint is a public
operation mutating paid_amount; patching only paid_amount to 10 on a
consistent record with total 100 and balance 100 leaves balance 100
against paid 10, violating the invariant. -/
theorem C3_counterexample :
    ¬ feeInvariant
        (update_fee_record ⟨100, 0, 100, PaymentStatus.pending⟩
          ⟨none, some 10, none, none⟩) := by
  norm_num [feeInvariant, update_fee_record]

/-- C3 amended: the balance invariant does hold after each of the three
payment reconciliation operations — payment creation and deletion always,
payment amendment whenever the supplied amount differs from the original
(otherwise paid_amount is not mutated at all) — but it is not protected
across all public operations: the fee-record create and update endpoints
write paid_amount and balance verbatim from the request. -/
theorem C3_payment_ops_invariant :
    (∀ (r : FeeRecord) (a : ℚ), feeInvariant (create_payment_apply r a)) ∧
    (∀ (r : FeeRecord) (a : ℚ), feeInvariant (delete_payment_apply r a)) ∧
    (∀ (r : FeeRecord) (o a : ℚ), a ≠ o →
      feeInvariant (update_payment_apply r o (some a))) := by
  refine ⟨?_, ?_, ?_⟩
  · intro r a; simp [feeInvariant, create_payment_apply]
  · intro r a; simp [feeInvariant, delete_payment_apply]
  · intro r o a hao; simp [feeInvariant, update_payment_apply, hao]

/-- C3 witness: the amendment branch of the invariant theorem at a record
with total 100 and paid 3, amending a payment from 3 to 5. -/
theorem C3_witness :
    (5 : ℚ) ≠ 3 ∧
    feeInvariant
      (update_payment_apply ⟨100, 3, 97, PaymentStatus.partiallyPaid⟩ 3
        (some 5)) :=
  ⟨by norm_num,
    C3_payment_ops_invariant.2.2 ⟨100, 3, 97, PaymentStatus.partiallyPaid⟩ 3 5
      (by norm_num)⟩

/-- Room label used by the slot-update examples. -/
def roomTwo : String := "R2"

/-- C4: membership in the conflict list computed by slot creation, and by
slot update, holds exactly when the existing slot shares the timetable and
day and the half-open intervals satisfy start1 < end2 and end1 > start2
(the update query only further excludes the slot being updated) — the same
interval test in both endpoints; in particular slots 08:00-09:00 and
09:00-10:00 on the same day and timetable conflict in neither order. -/
theorem C4_conflict_iff :
    (∀ (slots : List TimetableSlot) (c : TimetableSlotCreate)
        (s : TimetableSlot),
      s ∈ create_conflict_query slots c ↔
        s ∈ slots ∧ s.timetable_id = c.timetable_id ∧ s.day = c.day ∧
          s.start_time < c.end_time ∧ c.start_time < s.end_time) ∧
    (∀ (slots : List TimetableSlot) (slot_id tid : ℕ) (day : DayOfWeek)
        (t1 t2 : ℕ) (s : TimetableSlot),
      s ∈ update_conflict_query slots slot_id tid day t1 t2 ↔
        s ∈ slots ∧ s.id ≠ slot_id ∧ s.timetable_id = tid ∧ s.day = day ∧
          s.start_time < t2 ∧ t1 < s.end_time) ∧
    create_conflict_query
      [⟨1, DayOfWeek.monday, 480, 540, none, 1, 1, none⟩]
      ⟨DayOfWeek.monday, 540, 600, none, 1, 1, none⟩ = [] ∧
    create_conflict_query
      [⟨1, DayOfWeek.monday, 540, 600, none, 1, 1, none⟩]
      ⟨DayOfWeek.monday, 480, 540, none, 1, 1, none⟩ = [] := by
  refine ⟨?_, ?_, rfl, rfl⟩
  · intro slots c s
    simp [create_conflict_query, List.mem_filter]
  · intro slots slot_id tid day t1 t2 s
    simp [update_conflict_query, List.mem_filter]

/-- C7: when none of day, start_time, end_time is supplied, slot update
applies the remaining fields with no conflict check, whatever overlaps
exist; when at least one of the three is supplied and the conflict query
against the supplied-or-stored candidate values is inhabited, the update
is rejected. -/
theorem C7_update_conflict_check_iff (slots : List TimetableSlot)
    (slot_id : ℕ) (u : TimetableSlotUpdate) (slot : TimetableSlot)
    (hfind : slots.find? (fun s => s.id == slot_id) = some slot) :
    (u.day = none ∧ u.start_time = none ∧ u.end_time = none →
      update_timetable_slot slots slot_id u =
        (Except.ok (apply_slot_update slot u),
          slots.map fun s =>
            if s.id == slot_id then apply_slot_update slot u else s)) ∧
    ((u.day ≠ none ∨ u.start_time ≠ none ∨ u.end_time ≠ none) →
      ∀ other, other ∈ update_conflict_query slots slot_id slot.timetable_id
          (u.day.getD slot.day) (u.start_time.getD slot.start_time)
          (u.end_time.getD slot.end_time) →
        update_timetable_slot slots slot_id u =
          (Except.error (ApiError.badRequest conflictDetail), slots)) := by
  constructor
  · rintro ⟨hd, hs, he⟩
    simp [update_timetable_slot, hfind, update_checks_time, hd, hs, he]
  · intro hsome other hother
    have hchk : update_checks_time u = true := by
      rcases hsome with h | h | h <;>
        simp [update_checks_time, Option.isSome_iff_ne_none, h]
    have hne : (update_conflict_query slots slot_id slot.timetable_id
        (u.day.getD slot.day) (u.start_time.getD slot.start_time)
        (u.end_time.getD slot.end_time)).isEmpty = false := by
      rcases h : update_conflict_query slots slot_id slot.timetable_id
          (u.day.getD slot.day) (u.start_time.getD slot.start_time)
          (u.end_time.getD slot.end_time) with _ | ⟨a, l⟩
      · rw [h] at hother
        simp at hother
      · rfl
    simp [update_timetable_slot, hfind, hchk, hne]

/-- C7 witness: with slots 08:00-09:00 and the overlapping 08:20-09:20 on
the same timetable and Monday, updating only the first slot's room number
is accepted with no conflict check. -/
theorem C7_witness :
    ([⟨1, DayOfWeek.monday, 480, 540, none, 1, 1, none⟩,
        ⟨2, DayOfWeek.monday, 500, 560, none, 1, 1, none⟩] :
          List TimetableSlot).find? (fun s => s.id == 1) =
      some ⟨1, DayOfWeek.monday, 480, 540, none, 1, 1, none⟩ ∧
    update_timetable_slot
        [⟨1, DayOfWeek.monday, 480, 540, none, 1, 1, none⟩,
          ⟨2, DayOfWeek.monday, 500, 560, none, 1, 1, none⟩] 1
        ⟨none, none, none, some roomTwo, none, none⟩ =
      (Except.ok ⟨1, DayOfWeek.monday, 480, 540, some roomTwo, 1, 1, none⟩,
        [⟨1, DayOfWeek.monday, 480, 540, some roomTwo, 1, 1, none⟩,
          ⟨2, DayOfWeek.monday, 500, 560, none, 1, 1, none⟩]) :=
  ⟨rfl,
    ((C7_update_conflict_check_iff
        [⟨1, DayOfWeek.monday, 480, 540, none, 1, 1, none⟩,
          ⟨2, DayOfWeek.monday, 500, 560, none, 1, 1, none⟩] 1
        ⟨none, none, none, some roomTwo, none, none⟩
        ⟨1, DayOfWeek.monday, 480, 540, none, 1, 1, none⟩ rfl).1
      ⟨rfl, rfl, rfl⟩).trans rfl⟩

/-- C8 counterexample: the rejection raised on a conflicting creation is a
fixed 400 detail string; two slot tables whose conflict lists differ (one
conflicting slot versus two) produce identical rejection values, so the
rejection does not surface the conflicting slots found. -/
theorem C8_counterexample :
    create_conflict_query
        [⟨2, DayOfWeek.monday, 500, 560, none, 1, 1, none⟩]
        ⟨DayOfWeek.monday, 480, 540, none, 1, 1, none⟩ =
      [⟨2, DayOfWeek.monday, 500, 560, none, 1, 1, none⟩] ∧
    create_conflict_query
        [⟨2, DayOfWeek.monday, 500, 560, none, 1, 1, none⟩,
          ⟨3, DayOfWeek.monday, 520, 580, none, 1, 1, none⟩]
        ⟨DayOfWeek.monday, 480, 540, none, 1, 1, none⟩ =
      [⟨2, DayOfWeek.monday, 500, 560, none, 1, 1, none⟩,
        ⟨3, DayOfWeek.monday, 520, 580, none, 1, 1, none⟩] ∧
    (create_timetable_slot [1]
        [⟨2, DayOfWeek.monday, 500, 560, none, 1, 1, none⟩] 9
        ⟨DayOfWeek.monday, 480, 540, none, 1, 1, none⟩).1 =
      (create_timetable_slot [1]
        [⟨2, DayOfWeek.monday, 500, 560, none, 1, 1, none⟩,
          ⟨3, DayOfWeek.monday, 520, 580, none, 1, 1, none⟩] 9
        ⟨DayOfWeek.monday, 480, 540, none, 1, 1, none⟩).1 ∧
    (create_timetable_slot [1]
        [⟨2, DayOfWeek.monday, 500, 560, none, 1, 1, none⟩] 9
        ⟨DayOfWeek.monday, 480, 540, none, 1, 1, none⟩).1 =
      Except.error (ApiError.badRequest conflictDetail) :=
  ⟨rfl, rfl, rfl, rfl⟩

/-- C8 amended: when the conflict list is non-empty, creation (with the
timetable present) and update (with the slot found and the time check
running) are rejected and the slot table is returned unchanged — no insert
and no field write — but the rejection itself is the fixed detail string,
carrying no record of which slots conflicted. -/
theorem C8_reject_no_mutation :
    (∀ (timetable_ids : List ℕ) (slots : List TimetableSlot) (newId : ℕ)
        (c : TimetableSlotCreate),
      timetable_ids.contains c.timetable_id = true →
      create_conflict_query slots c ≠ [] →
      create_timetable_slot timetable_ids slots newId c =
        (Except.error (ApiError.badRequest conflictDetail), slots)) ∧
    (∀ (slots : List TimetableSlot) (slot_id : ℕ) (u : TimetableSlotUpdate)
        (slot : TimetableSlot),
      slots.find? (fun s => s.id == slot_id) = some slot →
      update_checks_time u = true →
      update_conflict_query slots slot_id slot.timetable_id
        (u.day.getD slot.day) (u.start_time.getD slot.start_time)
        (u.end_time.getD slot.end_time) ≠ [] →
      update_timetable_slot slots slot_id u =
        (Except.error (ApiError.badRequest conflictDetail), slots)) := by
  constructor
  · intro timetable_ids slots newId c hmem hconf
    have hne : (create_conflict_query slots c).isEmpty = false := by
      rcases h : create_conflict_query slots c with _ | ⟨a, l⟩
      · exact absurd h hconf
      · rfl
    have hmem' : c.timetable_id ∈ timetable_ids := by simpa using hmem
    simp [create_timetable_slot, hmem', hne]
  · intro slots slot_id u slot hfind hchk hconf
    have hne : (update_conflict_query slots slot_id slot.timetable_id
        (u.day.getD slot.day) (u.start_time.getD slot.start_time)
        (u.end_time.getD slot.end_time)).isEmpty = false := by
      rcases h : update_conflict_query slots slot_id slot.timetable_id
          (u.day.getD slot.day) (u.start_time.getD slot.start_time)
          (u.end_time.getD slot.end_time) with _ | ⟨a, l⟩
      · exact absurd h hconf
      · rfl
    simp [update_timetable_slot, hfind, hchk, hne]

/-- C8 witness: a creation conflicting with the single 08:20-09:20 slot is
rejected by the first branch of the rejection theorem, leaving the slot
table unchanged. -/
theorem C8_witness :
    ([1] : List ℕ).contains
        (⟨DayOfWeek.monday, 480, 540, none, 1, 1, none⟩ :
          TimetableSlotCreate).timetable_id = true ∧
    create_conflict_query
        [⟨2, DayOfWeek.monday, 500, 560, none, 1, 3, none⟩]
        ⟨DayOfWeek.monday, 480, 540, none, 1, 1, none⟩ ≠ [] ∧
    create_timetable_slot [1]
        [⟨2, DayOfWeek.monday, 500, 560, none, 1, 3, none⟩] 4
        ⟨DayOfWeek.monday, 480, 540, none, 1, 1, none⟩ =
      (Except.error (ApiError.badRequest conflictDetail),
        [⟨2, DayOfWeek.monday, 500, 560, none, 1, 3, none⟩]) :=
  ⟨rfl, by decide,
    C8_reject_no_mutation.1 [1]
      [⟨2, DayOfWeek.monday, 500, 560, none, 1, 3, none⟩] 4
      ⟨DayOfWeek.monday, 480, 540, none, 1, 1, none⟩ rfl (by decide)⟩

/-- C9 counterexample: a creation request with start 10:00 and end 09:00
— a malformed range — on an empty timetable is accepted and persisted, not
rejected: no start-before-end validation exists in either slot endpoint. -/
theorem C9_counterexample :
    (create_timetable_slot [1] [] 1
        ⟨DayOfWeek.monday, 600, 540, none, 1, 1, none⟩).1 =
      Except.ok (mk_slot 1 ⟨DayOfWeek.monday, 600, 540, none, 1, 1, none⟩) ∧
    (create_timetable_slot [1] [] 1
        ⟨DayOfWeek.monday, 600, 540, none, 1, 1, none⟩).2 =
      [mk_slot 1 ⟨DayOfWeek.monday, 600, 540, none, 1, 1, none⟩] ∧
    ¬ (600 : ℕ) < 540 :=
  ⟨rfl, rfl, by norm_num⟩

/-- C9 amended: slot creation and update validate nothing about the time
ordering: with the timetable present (creation) or the slot found
(update), acceptance is decided solely by emptiness of the conflict query,
and a candidate with start_time ≥ end_time is accepted and persisted like
any other; no InvalidState-style rejection exists. -/
theorem C9_no_time_validation :
    (∀ (timetable_ids : List ℕ) (slots : List TimetableSlot) (newId : ℕ)
        (c : TimetableSlotCreate),
      timetable_ids.contains c.timetable_id = true →
      create_conflict_query slots c = [] →
      create_timetable_slot timetable_ids slots newId c =
        (Except.ok (mk_slot newId c), slots ++ [mk_slot newId c])) ∧
    (∀ (slots : List TimetableSlot) (slot_id : ℕ) (u : TimetableSlotUpdate)
        (slot : TimetableSlot),
      slots.find? (fun s => s.id == slot_id) = some slot →
      update_conflict_query slots slot_id slot.timetable_id
        (u.day.getD slot.day) (u.start_time.getD slot.start_time)
        (u.end_time.getD slot.end_time) = [] →
      update_timetable_slot slots slot_id u =
        (Except.ok (apply_slot_update slot u),
          slots.map fun s =>
            if s.id == slot_id then apply_slot_update slot u else s)) := by
  constructor
  · intro timetable_ids slots newId c hmem hconf
    have hmem' : c.timetable_id ∈ timetable_ids := by simpa using hmem
    simp [create_timetable_slot, hmem', hconf]
  · intro slots slot_id u slot hfind hconf
    by_cases hchk : update_checks_time u = true
    · simp [update_timetable_slot, hfind, hchk, hconf]
    · simp [update_timetable_slot, hfind, hchk]

/-- C9 witness: the malformed 10:00-to-09:00 candidate is accepted on an
empty timetable through the creation branch of the no-validation
theorem. -/
theorem C9_witness :
    ([1] : List ℕ).contains
        (⟨DayOfWeek.monday, 600, 540, none, 1, 1, none⟩ :
          TimetableSlotCreate).timetable_id = true ∧
    create_conflict_query []
        ⟨DayOfWeek.monday, 600, 540, none, 1, 1, none⟩ = [] ∧
    create_timetable_slot [1] [] 7
        ⟨DayOfWeek.monday, 600, 540, none, 1, 1, none⟩ =
      (Except.ok (mk_slot 7 ⟨DayOfWeek.monday, 600, 540, none, 1, 1, none⟩),
        [mk_slot 7 ⟨DayOfWeek.monday, 600, 540, none, 1, 1, none⟩]) :=
  ⟨rfl, rfl,
    C9_no_time_validation.1 [1] [] 7
      ⟨DayOfWeek.monday, 600, 540, none, 1, 1, none⟩ rfl rfl⟩

/-- C10 counterexample: an update of slot 1 (stored Monday 08:00-09:00)
supplying start 00:00 and end 00:20 is checked against the supplied
midnight interval — midnight time values are truthy in the source's Python
version — and rejected for conflicting with the 00:10-00:30 slot, whereas
the conflict query against the stored 08:00-09:00 interval is empty, so
the claimed evaluation against the stored time would have accepted it. -/
theorem C10_counterexample :
    (update_timetable_slot
        [⟨1, DayOfWeek.monday, 480, 540, none, 1, 1, none⟩,
          ⟨2, DayOfWeek.monday, 10, 30, none, 1, 1, none⟩] 1
        ⟨none, some 0, some 20, none, none, none⟩).1 =
      Except.error (ApiError.badRequest conflictDetail) ∧
    update_conflict_query
        [⟨1, DayOfWeek.monday, 480, 540, none, 1, 1, none⟩,
          ⟨2, DayOfWeek.monday, 10, 30, none, 1, 1, none⟩] 1 1
        DayOfWeek.monday 480 540 = [] :=
  ⟨rfl, rfl⟩

/-- C10 amended: the guard does use Python truthiness, but enum members
and time objects are always truthy when present (Python 3.5 and later,
midnight included), so truthiness coincides with presence: an update
supplying start_time 00:00 runs the conflict check against 00:00 itself
and is accepted exactly when that candidate interval conflicts with
nothing — no fallback to the stored time occurs and no overlapping
acceptance arises from midnight values. -/
theorem C10_midnight_uses_request_time (slots : List TimetableSlot)
    (slot_id : ℕ) (u : TimetableSlotUpdate) (slot : TimetableSlot)
    (hfind : slots.find? (fun s => s.id == slot_id) = some slot)
    (hs : u.start_time = some 0) :
    update_timetable_slot slots slot_id u =
      (if (update_conflict_query slots slot_id slot.timetable_id
            (u.day.getD slot.day) 0 (u.end_time.getD slot.end_time)).isEmpty
       then (Except.ok (apply_slot_update slot u),
          slots.map fun s =>
            if s.id == slot_id then apply_slot_update slot u else s)
       else (Except.error (ApiError.badRequest conflictDetail), slots)) := by
  have hchk : update_checks_time u = true := by
    simp [update_checks_time, hs]
  simp only [update_timetable_slot, hfind, hchk, hs, if_true, Option.getD_some]

/-- C10 witness: the midnight update of the counterexample scenario,
driven through the amended theorem: the conflict query at the supplied
interval 00:00-00:20 is non-empty, so the update is rejected and the slot
table unchanged. -/
theorem C10_witness :
    ([⟨1, DayOfWeek.monday, 480, 540, none, 1, 1, none⟩,
        ⟨2, DayOfWeek.monday, 10, 30, none, 1, 1, none⟩] :
          List TimetableSlot).find? (fun s => s.id == 1) =
      some ⟨1, DayOfWeek.monday, 480, 540, none, 1, 1, none⟩ ∧
    (⟨none, some 0, some 20, none, none, none⟩ :
        TimetableSlotUpdate).start_time = some 0 ∧
    update_timetable_slot
        [⟨1, DayOfWeek.monday, 480, 540, none, 1, 1, none⟩,
          ⟨2, DayOfWeek.monday, 10, 30, none, 1, 1, none⟩] 1
        ⟨none, some 0, some 20, none, none, none⟩ =
      (Except.error (ApiError.badRequest conflictDetail),
        [⟨1, DayOfWeek.monday, 480, 540, none, 1, 1, none⟩,
          ⟨2, DayOfWeek.monday, 10, 30, none, 1, 1, none⟩]) :=
  ⟨rfl, rfl,
    (C10_midnight_uses_request_time
        [⟨1, DayOfWeek.monday, 480, 540, none, 1, 1, none⟩,
          ⟨2, DayOfWeek.monday, 10, 30, none, 1, 1, none⟩] 1
        ⟨none, some 0, some 20, none, none, none⟩
        ⟨1, DayOfWeek.monday, 480, 540, none, 1, 1, none⟩ rfl rfl).trans rfl⟩

end SchoolMS
